import Mathlib

set_option autoImplicit false

namespace ActixLua

/-!
Shallow embedding of the actor/interpreter bridge of the `actix-lua` crate
(`src/actor.rs`, `src/lib.rs`).  The crate's `message.rs`, `builder.rs` and
`lua/prelude.lua` are not part of the sources at hand, so the message value
type and the prelude's coroutine dispatch are modelled from the design
document; everything else is translated directly from `actor.rs`.
-/

/-- Modelled from the spec: the `LuaMessage` enum lives in `message.rs`
(not under `src/`).  The spec's Message Value variants: Nil, Boolean,
Integer, Float, String, Table, and the Pending marker (`ThreadYield`,
carrying the id of the suspended coroutine).  The float payload is kept
as an opaque bit pattern; table keys are strings, as exercised by the
crate's own tests (`lua_actor_return_table`). -/
inductive LuaMessage where
  | Nil : LuaMessage
  | Boolean : Bool → LuaMessage
  | Integer : Int → LuaMessage
  | Number : Nat → LuaMessage
  | String : String → LuaMessage
  | Table : List (String × LuaMessage) → LuaMessage
  | ThreadYield : Int → LuaMessage

/-- The internal self-addressed message posted by the `send` host binding
(`struct SendAttempt`, actor.rs lines 264-268). -/
structure SendAttempt where
  recipient_name : String
  msg : LuaMessage
  cb_thread_id : Int

/-- The internal self-addressed message posted when the target's response
arrives (`struct SendAttemptResult`, actor.rs lines 274-277). -/
structure SendAttemptResult where
  msg : LuaMessage
  cb_thread_id : Int

/-- An actix `Recipient<LuaMessage>` address, opaque to the bridge. -/
abbrev Addr := Nat

/-- The actor's recipient registry (`recipients: HashMap<String, Recipient<LuaMessage>>`),
modelled as an association list with unique keys. -/
abbrev Recipients := List (String × Addr)

/-- `HashMap::get` on the registry. -/
def recsLookup : Recipients → String → Option Addr
  | [], _ => none
  | (k, v) :: rest, n => if k = n then some v else recsLookup rest n

/-- `HashMap::insert` on the registry: overwrites an existing entry for the
same key (last write wins), otherwise appends. -/
def recsInsert : Recipients → String → Addr → Recipients
  | [], n, a => [(n, a)]
  | (k, v) :: rest, n, a =>
      if k = n then (n, a) :: rest else (k, v) :: recsInsert rest n a

/-- Observable actions a host binding performs on the actix side.
`postSelfAttempt` is `self_addr.do_send(SendAttempt { .. })`;
`recipientDoSend` is `Recipient::do_send` on a registry entry;
`recipientSend` is the request/response `Recipient::send`;
`startChildActor` records that `LuaActorBuilder::new().on_handle(..).build()?.start()`
produced a child actor with the given address. -/
inductive Effect where
  | notify : LuaMessage → Effect
  | notifyLater : LuaMessage → Nat → Effect
  | postSelfAttempt : SendAttempt → Effect
  | recipientDoSend : Addr → LuaMessage → Effect
  | recipientSend : Addr → LuaMessage → Effect
  | startChildActor : String → Addr → Effect
  | terminate : Effect

/-- Whether a host binding call completed normally (`Ok(..)` handed back to the
interpreter) or aborted the process (a Rust `panic`). -/
inductive BindingResult where
  | ok : BindingResult
  | panicked : String → BindingResult
  deriving DecidableEq

/-- The `send` host binding installed by `invoke` (actor.rs lines 195-212):
it only posts a self-addressed `SendAttempt` carrying the triple and returns
`Ok(())` at once; it never touches the registry and never contacts the
target recipient itself. -/
def send_binding (recipient_name : String) (msg : LuaMessage) (cb_thread_id : Int) :
    List Effect × BindingResult :=
  ([Effect.postSelfAttempt ⟨recipient_name, msg, cb_thread_id⟩], BindingResult.ok)

/-- The `do_send` host binding (actor.rs lines 182-193): looks the name up in
the registry; if present, fires `Recipient::do_send`; if absent, the
`if let Some(r)` falls through and the call still returns `Ok(())`. -/
def do_send_binding (recs : Recipients) (recipient_name : String) (msg : LuaMessage) :
    List Effect × BindingResult :=
  match recsLookup recs recipient_name with
  | some r => ([Effect.recipientDoSend r msg], BindingResult.ok)
  | none => ([], BindingResult.ok)

/-- The `__new_actor` host binding (actor.rs lines 163-180).  `uuid` stands for
the fresh `Uuid::new_v4()` token and `childAddr` for the address of the child
actor started by the builder.  The default name is
`format!("LuaActor-{}-{}", recipient_id, &script_path)`, overridden whenever
the optional `name` argument is a string; the pair `(name, addr.recipient())`
is inserted into the registry and the name is returned to the script. -/
def new_actor_binding (uuid : String) (childAddr : Addr) (recs : Recipients)
    (script_path : String) (name : LuaMessage) :
    Recipients × List Effect × LuaMessage :=
  let recipient_name :=
    match name with
    | LuaMessage.String n => n
    | _ => "LuaActor-" ++ uuid ++ "-" ++ script_path
  (recsInsert recs recipient_name childAddr,
   [Effect.startChildActor script_path childAddr],
   LuaMessage.String recipient_name)

/-- Outcome of calling a Lua function fetched from the globals: it either
returns a value the `FromLua` conversion accepts, raises an uncaught Lua
error (`f.call` returns `Err`), or returns a value `FromLua` rejects
(`LuaMessage::from_lua(ret, &vm).unwrap()` then panics). -/
inductive ScriptOutcome where
  | ret : LuaMessage → ScriptOutcome
  | err : String → ScriptOutcome
  | nonConvertible : String → ScriptOutcome

/-- The interpreter's global scope, restricted to what `invoke` reads from it:
for each name, either a callable function or nothing (`globals.get::<Function>`
fails both for `nil` and for a non-function value). -/
abbrev Globals := String → Option (List LuaMessage → ScriptOutcome)

/-- Result of `invoke` (actor.rs lines 116-232): `ok` is `Ok(LuaMessage)`,
`luaErr` is `Err(LuaError)` (raised by `vm.scope` while installing the six
host bindings), and `panicked` is a Rust panic (`panic!(e.to_string())` on a
script error, or the `unwrap` on a failed `FromLua` conversion). -/
inductive InvokeResult where
  | ok : LuaMessage → InvokeResult
  | luaErr : String → InvokeResult
  | panicked : String → InvokeResult

/-- `invoke` (actor.rs lines 116-232).  `installFailure` is the error, if any,
with which installing the host bindings inside `vm.scope` fails; when
installation succeeds, the entry point is resolved by name in global scope:
absent means `Ok(LuaMessage::Nil)`, present means the function is called with
the argument sequence and its return value converted back, a script error or
conversion failure panicking instead of returning. -/
def invoke (installFailure : Option String) (globals : Globals)
    (func_name : String) (args : List LuaMessage) : InvokeResult :=
  match installFailure with
  | some e => InvokeResult.luaErr e
  | none =>
    match globals func_name with
    | none => InvokeResult.ok LuaMessage.Nil
    | some f =>
      match f args with
      | ScriptOutcome.ret v => InvokeResult.ok v
      | ScriptOutcome.err e => InvokeResult.panicked e
      | ScriptOutcome.nonConvertible e => InvokeResult.panicked e

/-- What an actix message handler of the actor does overall: reply with a
`LuaMessage`, or die by panic (actix tears the actor down). -/
inductive HandlerOutcome where
  | reply : LuaMessage → HandlerOutcome
  | panicked : String → HandlerOutcome

/-- One re-entry into the Invocation Bridge: the entry-point name and the
argument sequence passed to `invoke`. -/
structure InvokeCall where
  func_name : String
  args : List LuaMessage

/-- The shared shape of `Handler<LuaMessage>` and `Handler<SendAttemptResult>`
(actor.rs lines 283-319): run `invoke`; `Ok(res)` is the reply, `Err(..)`
falls back to `LuaMessage::Nil`, and a panic propagates. -/
def runInvokeToReply (installFailure : Option String) (globals : Globals)
    (c : InvokeCall) : HandlerOutcome :=
  match invoke installFailure globals c.func_name c.args with
  | InvokeResult.ok res => HandlerOutcome.reply res
  | InvokeResult.luaErr _ => HandlerOutcome.reply LuaMessage.Nil
  | InvokeResult.panicked e => HandlerOutcome.panicked e

/-- The bridge call made by `Handler<LuaMessage>` (actor.rs lines 283-300):
entry point `"__run"`, arguments `["handle", msg]`. -/
def luaMessageCall (msg : LuaMessage) : InvokeCall :=
  ⟨"__run", [LuaMessage.String "handle", msg]⟩

/-- `Handler<LuaMessage> for LuaActor` (actor.rs lines 283-300). -/
def handle_LuaMessage (installFailure : Option String) (globals : Globals)
    (msg : LuaMessage) : HandlerOutcome :=
  runInvokeToReply installFailure globals (luaMessageCall msg)

/-- The bridge call made by `Handler<SendAttemptResult>` (actor.rs lines
302-319): entry point `"__resume"`, arguments
`[LuaMessage::from(result.cb_thread_id), result.msg]`. -/
def sendAttemptResultCall (r : SendAttemptResult) : InvokeCall :=
  ⟨"__resume", [LuaMessage.Integer r.cb_thread_id, r.msg]⟩

/-- `Handler<SendAttemptResult> for LuaActor` (actor.rs lines 302-319). -/
def handle_SendAttemptResult (installFailure : Option String) (globals : Globals)
    (r : SendAttemptResult) : HandlerOutcome :=
  runInvokeToReply installFailure globals (sendAttemptResultCall r)

/-- Outcome of `Handler<SendAttempt>` (actor.rs lines 321-344):
`&self.recipients[&attempt.recipient_name]` panics when the key is absent
(the `Index` impl of `HashMap`); otherwise `rec.send(attempt.msg)` is issued
and the actor waits (`.wait(ctx)`) for the response future, posting a
`SendAttemptResult` to itself when it resolves. -/
inductive SendAttemptOutcome where
  | panicked : String → SendAttemptOutcome
  | awaiting : Addr → LuaMessage → Int → SendAttemptOutcome

/-- `Handler<SendAttempt> for LuaActor` (actor.rs lines 321-344). -/
def handle_SendAttempt (recs : Recipients) (a : SendAttempt) : SendAttemptOutcome :=
  match recsLookup recs a.recipient_name with
  | none => SendAttemptOutcome.panicked "no entry found for key"
  | some r => SendAttemptOutcome.awaiting r a.msg a.cb_thread_id

/-- `LuaActor::started` (actor.rs lines 237-248): `invoke` with `"__run"` and
`["started"]`; an `Err` makes the hook panic, and a panic inside `invoke`
propagates, so the actor comes up normally only when `invoke` returns `Ok`. -/
def actor_started (installFailure : Option String) (globals : Globals) :
    HandlerOutcome :=
  match invoke installFailure globals "__run" [LuaMessage.String "started"] with
  | InvokeResult.ok v => HandlerOutcome.reply v
  | InvokeResult.luaErr e => HandlerOutcome.panicked ("lua actor started failed " ++ e)
  | InvokeResult.panicked e => HandlerOutcome.panicked e

/-- Modelled from the spec: the result of running a lifecycle script inside
the prelude's coroutine (`src/lua/prelude.lua` is not under `src/`).  Per the
design document, the script either reaches a final return with a value, or
cooperatively suspends after issuing a cross-actor `send`, leaving behind the
id of the suspended coroutine. -/
inductive ScriptExec where
  | final : LuaMessage → ScriptExec
  | suspended : Int → ScriptExec

/-- Modelled from the spec: the prelude's `__run` dispatch entry point
(`src/lua/prelude.lua` is not under `src/`).  It multiplexes by lifecycle
name to the loaded start/handle/stop callable; an absent callable yields nil;
a present one runs in a coroutine, and if it suspends before a final return
the value handed back to `invoke` converts to the Pending (`ThreadYield`)
Message Value carrying the coroutine id, exactly as the crate's
`lua_actor_thread_yield` test observes. -/
def prelude_run (lifecycle : String → Option (LuaMessage → ScriptExec)) :
    List LuaMessage → ScriptOutcome :=
  fun args =>
    match args with
    | LuaMessage.String name :: rest =>
      let m := match rest with
        | [m'] => m'
        | _ => LuaMessage.Nil
      match lifecycle name with
      | none => ScriptOutcome.ret LuaMessage.Nil
      | some f =>
        match f m with
        | ScriptExec.final v => ScriptOutcome.ret v
        | ScriptExec.suspended cid => ScriptOutcome.ret (LuaMessage.ThreadYield cid)
    | _ => ScriptOutcome.err "__run called without a lifecycle name"

/-- The global scope of an actor whose prelude loaded the given lifecycle
callables: `"__run"` resolves to the prelude dispatcher, other names
resolve to nothing. -/
def actorGlobals (lifecycle : String → Option (LuaMessage → ScriptExec)) : Globals :=
  fun n => if n = "__run" then some (prelude_run lifecycle) else none

/-- The state `LuaActor::new_with_vm` constructs on success (the `vm` field is
kept abstract; the registry starts empty). -/
structure LuaActorState where
  recipients : Recipients

/-- Behaviour of the prelude's `__load(script, slot)` function for a given vm:
`Except.error e` is the `LuaError` a parse/compile failure raises. -/
abbrev LoadFun := String → String → Except String Unit

/-- `LuaActor::new_with_vm` (actor.rs lines 56-93).  `preludeEval` is the
outcome of `vm.eval(prelude)?` together with fetching `__load` from globals;
each supplied script is then passed to `__load` with its slot name, the first
`Err(e)` being returned immediately; only when every load succeeds is the
`LuaActor` value produced, with an empty recipient registry. -/
def new_with_vm (preludeEval : Except String Unit) (load : LoadFun)
    (started handle stopped : Option String) : Except String LuaActorState := do
  preludeEval
  match started with
  | some script => load script "started"
  | none => pure ()
  match handle with
  | some script => load script "handle"
  | none => pure ()
  match stopped with
  | some script => load script "stopped"
  | none => pure ()
  pure ⟨[]⟩

/-- A message queued in the actor's actix mailbox: an externally delivered
`LuaMessage`, or one of the two internal self-addressed messages. -/
inductive QueuedMsg where
  | external : LuaMessage → QueuedMsg
  | attempt : SendAttempt → QueuedMsg
  | attemptResult : SendAttemptResult → QueuedMsg

/-- Processing mode of the actor.  `waitingSend target cid` is the state
entered by `Handler<SendAttempt>`'s `.wait(ctx)` (actor.rs line 340): per
actix's `Context::wait`, the actor processes no further mailbox messages
until the waited response future resolves.  `dead` is the state after a
panic in a handler. -/
inductive ActorMode where
  | running : ActorMode
  | waitingSend : Addr → Int → ActorMode
  | dead : ActorMode

/-- The actor's mailbox together with its processing mode. -/
structure MailboxState where
  mode : ActorMode
  queue : List QueuedMsg

/-- Message arrival: the mailbox accepts and enqueues a message in every
mode; arrival never inspects the processing mode. -/
def acceptMsg (s : MailboxState) (m : QueuedMsg) : MailboxState :=
  ⟨s.mode, s.queue ++ [m]⟩

/-- One mailbox-processing step of the actix event loop for this actor.
While a `Context::wait` future is pending (`waitingSend`) no queued message
is processed; in `running` mode the head message is dispatched to the
matching handler, a `SendAttempt` moving the actor into `waitingSend` via
`.wait(ctx)` (or killing it when the registry lookup panics). -/
def stepProcess (recs : Recipients) (s : MailboxState) :
    Option (QueuedMsg × MailboxState) :=
  match s.mode with
  | ActorMode.waitingSend _ _ => none
  | ActorMode.dead => none
  | ActorMode.running =>
    match s.queue with
    | [] => none
    | m :: rest =>
      let mode' :=
        match m with
        | QueuedMsg.attempt a =>
          match handle_SendAttempt recs a with
          | SendAttemptOutcome.awaiting t _ cid => ActorMode.waitingSend t cid
          | SendAttemptOutcome.panicked _ => ActorMode.dead
        | _ => ActorMode.running
      some (m, ⟨mode', rest⟩)

/-- Resolution of the waited send future: the target's response `r` arrives,
`then` posts `SendAttemptResult { msg: r, cb_thread_id }` back to the actor's
own mailbox, and the `Context::wait` hold is released, so processing
resumes. -/
def responseArrives (s : MailboxState) (r : LuaMessage) : MailboxState :=
  match s.mode with
  | ActorMode.waitingSend _ cid =>
      ⟨ActorMode.running, s.queue ++ [QueuedMsg.attemptResult ⟨r, cid⟩]⟩
  | _ => s

/-- A lifecycle table whose handle script suspends with coroutine id 1. -/
def suspendingLifecycle : String → Option (LuaMessage → ScriptExec) :=
  fun n => if n = "handle" then some (fun _ => ScriptExec.suspended 1) else none

/-- A global scope whose `__run` raises an uncaught script error. -/
def erroringGlobals : Globals :=
  fun n => if n = "__run" then some (fun _ => ScriptOutcome.err "boom") else none

/-- A global scope whose `handle` returns the integer 7. -/
def returningGlobals : Globals :=
  fun n =>
    if n = "handle" then some (fun _ => ScriptOutcome.ret (LuaMessage.Integer 7))
    else none

/-- A `__load` that always reports a parse error. -/
def failingLoad : LoadFun := fun _ _ => Except.error "syntax error"

/-- Example registry holding one child recipient. -/
def exampleRecs : Recipients := [("child", 0)]

/-- Example internal attempt message for the child recipient. -/
def exampleAttempt : SendAttempt := ⟨"child", LuaMessage.Nil, 1⟩

/-- Example mailbox: an attempt at the head, an external message queued
behind it. -/
def exampleMailbox : MailboxState :=
  ⟨ActorMode.running,
   [QueuedMsg.attempt exampleAttempt, QueuedMsg.external (LuaMessage.Integer 5)]⟩

/-- The mailbox after the attempt is handled: the actor is held by
`Context::wait` while the external message is still queued. -/
def exampleWaiting : MailboxState :=
  ⟨ActorMode.waitingSend 0 1, [QueuedMsg.external (LuaMessage.Integer 5)]⟩

/-- Inserting a key makes it the one looked up afterwards, overwriting any
previous entry for the same key. -/
theorem recsLookup_insert (rs : Recipients) (n : String) (a : Addr) :
    recsLookup (recsInsert rs n a) n = some a := by
  induction rs with
  | nil => simp [recsInsert, recsLookup]
  | cons kv rest ih =>
    obtain ⟨k, v⟩ := kv
    by_cases h : k = n <;> simp [recsInsert, recsLookup, h, ih]

/-- C1: every script-level `send(name, msg, cid)` makes the host binding post
exactly one self-addressed `SendAttempt` carrying the triple
`{target name, message, cid}`; it never sends to the target recipient
directly, and it hands `Ok(())` straight back to the interpreter. -/
theorem C1_send_binding_posts_self_attempt (name : String) (msg : LuaMessage)
    (cid : Int) :
    send_binding name msg cid =
      ([Effect.postSelfAttempt ⟨name, msg, cid⟩], BindingResult.ok) ∧
    ∀ a m, Effect.recipientDoSend a m ∉ (send_binding name msg cid).1 ∧
           Effect.recipientSend a m ∉ (send_binding name msg cid).1 := by
  refine ⟨rfl, fun a m => ⟨?_, ?_⟩⟩ <;> simp [send_binding]

/-- Witness for C1 at a concrete triple. -/
theorem C1_send_binding_posts_self_attempt_witness :
    send_binding "child" LuaMessage.Nil 7 =
      ([Effect.postSelfAttempt ⟨"child", LuaMessage.Nil, 7⟩], BindingResult.ok) ∧
    Effect.recipientDoSend 0 LuaMessage.Nil ∉ (send_binding "child" LuaMessage.Nil 7).1 :=
  ⟨(C1_send_binding_posts_self_attempt "child" LuaMessage.Nil 7).1,
   ((C1_send_binding_posts_self_attempt "child" LuaMessage.Nil 7).2 0 LuaMessage.Nil).1⟩

/-- C2: for every internal `SendAttemptResult`, the actor re-enters the
Invocation Bridge with entry point `"__resume"` (the bridge's resume
dispatch) and exactly the two arguments `[cid, response]`, in that order. -/
theorem C2_result_reenters_resume (r : SendAttemptResult) :
    sendAttemptResultCall r =
      ⟨"__resume", [LuaMessage.Integer r.cb_thread_id, r.msg]⟩ ∧
    ∀ installFailure globals,
      handle_SendAttemptResult installFailure globals r =
        runInvokeToReply installFailure globals
          ⟨"__resume", [LuaMessage.Integer r.cb_thread_id, r.msg]⟩ :=
  ⟨rfl, fun _ _ => rfl⟩

/-- C3: when the handle script issues a cross-actor send and suspends before
a final return, `invoke` yields the Pending (`ThreadYield`) Message Value,
and the external sender of the top-level message receives that marker as its
reply, not the eventual resolved response. -/
theorem C3_suspension_replies_pending
    (lifecycle : String → Option (LuaMessage → ScriptExec))
    (f : LuaMessage → ScriptExec) (msg : LuaMessage) (cid : Int)
    (hf : lifecycle "handle" = some f) (hs : f msg = ScriptExec.suspended cid) :
    invoke none (actorGlobals lifecycle) "__run" [LuaMessage.String "handle", msg]
      = InvokeResult.ok (LuaMessage.ThreadYield cid) ∧
    handle_LuaMessage none (actorGlobals lifecycle) msg
      = HandlerOutcome.reply (LuaMessage.ThreadYield cid) := by
  constructor <;>
    simp [handle_LuaMessage, runInvokeToReply, luaMessageCall, invoke,
      actorGlobals, prelude_run, hf, hs]

/-- Witness for C3: a concrete suspending handle script. -/
theorem C3_suspension_replies_pending_witness :
    handle_LuaMessage none (actorGlobals suspendingLifecycle) LuaMessage.Nil
      = HandlerOutcome.reply (LuaMessage.ThreadYield 1) :=
  (C3_suspension_replies_pending suspendingLifecycle
    (fun _ => ScriptExec.suspended 1) LuaMessage.Nil 1 rfl rfl).2

/-- C4: an uncaught script error (or a conversion failure of the returned
value) during a lifecycle call panics inside `invoke`: the call never
produces an `Ok` result, and through `Handler<LuaMessage>` and
`LuaActor::started` the panic propagates and kills the owning actor. -/
theorem C4_script_error_fatal (g : Globals)
    (f : List LuaMessage → ScriptOutcome) (args : List LuaMessage) (e : String)
    (hg : g "__run" = some f) :
    (f args = ScriptOutcome.err e →
       invoke none g "__run" args = InvokeResult.panicked e) ∧
    (f args = ScriptOutcome.nonConvertible e →
       invoke none g "__run" args = InvokeResult.panicked e) ∧
    (∀ v, f args = ScriptOutcome.err e →
       invoke none g "__run" args ≠ InvokeResult.ok v) ∧
    (∀ m, f [LuaMessage.String "handle", m] = ScriptOutcome.err e →
       handle_LuaMessage none g m = HandlerOutcome.panicked e) ∧
    (f [LuaMessage.String "started"] = ScriptOutcome.err e →
       actor_started none g = HandlerOutcome.panicked e) := by
  refine ⟨fun h => ?_, fun h => ?_, fun v h => ?_, fun m h => ?_, fun h => ?_⟩ <;>
    simp [invoke, handle_LuaMessage, runInvokeToReply, luaMessageCall,
      actor_started, hg, h]

/-- Witness for C4: a concrete erroring script is fatal for the call, for the
message handler, and for the start hook. -/
theorem C4_script_error_fatal_witness :
    invoke none erroringGlobals "__run" [] = InvokeResult.panicked "boom" ∧
    handle_LuaMessage none erroringGlobals LuaMessage.Nil
      = HandlerOutcome.panicked "boom" ∧
    actor_started none erroringGlobals = HandlerOutcome.panicked "boom" :=
  ⟨(C4_script_error_fatal erroringGlobals
      (fun _ => ScriptOutcome.err "boom") [] "boom" rfl).1 rfl,
   (C4_script_error_fatal erroringGlobals
      (fun _ => ScriptOutcome.err "boom") [] "boom" rfl).2.2.2.1 LuaMessage.Nil rfl,
   (C4_script_error_fatal erroringGlobals
      (fun _ => ScriptOutcome.err "boom") [] "boom" rfl).2.2.2.2 rfl⟩

/-- C5(counterexample): with an empty registry, `do_send` to the absent name
"missing" performs no send at all and still returns `Ok(())` — the call is
silently ignored, not fatal, refuting the claim for `do_send`. -/
theorem C5_counterexample :
    recsLookup [] "missing" = none ∧
    do_send_binding [] "missing" LuaMessage.Nil = ([], BindingResult.ok) :=
  ⟨rfl, rfl⟩

/-- C5(amended): a script-level `send` to an unknown recipient is fatal when
the self-posted attempt is handled (the registry `HashMap` index panics),
while `do_send` to an unknown recipient is silently ignored: no message is
sent and the binding returns `Ok(())`. -/
theorem C5_unknown_recipient (recs : Recipients) (name : String)
    (msg : LuaMessage) (h : recsLookup recs name = none) :
    (∀ cid, handle_SendAttempt recs ⟨name, msg, cid⟩
        = SendAttemptOutcome.panicked "no entry found for key") ∧
    do_send_binding recs name msg = ([], BindingResult.ok) := by
  exact ⟨fun cid => by simp [handle_SendAttempt, h],
         by simp [do_send_binding, h]⟩

/-- Witness for C5 at the empty registry. -/
theorem C5_unknown_recipient_witness :
    handle_SendAttempt [] ⟨"missing", LuaMessage.Nil, 3⟩
      = SendAttemptOutcome.panicked "no entry found for key" ∧
    do_send_binding [] "missing" LuaMessage.Nil = ([], BindingResult.ok) :=
  ⟨(C5_unknown_recipient [] "missing" LuaMessage.Nil rfl).1 3,
   (C5_unknown_recipient [] "missing" LuaMessage.Nil rfl).2⟩

/-- C6: an entry point that does not resolve to a function in global scope
makes `invoke` return `Ok(LuaMessage::Nil)`; one that does resolve is called
with the argument sequence, its return value converted back. -/
theorem C6_missing_handler_is_nil (g : Globals) (name : String)
    (args : List LuaMessage) :
    (g name = none → invoke none g name args = InvokeResult.ok LuaMessage.Nil) ∧
    (∀ f v, g name = some f → f args = ScriptOutcome.ret v →
       invoke none g name args = InvokeResult.ok v) := by
  exact ⟨fun h => by simp [invoke, h],
         fun f v hf hv => by simp [invoke, hf, hv]⟩

/-- Witness for C6: empty globals give nil, a defined handler's return value
comes back converted. -/
theorem C6_missing_handler_is_nil_witness :
    invoke none (fun _ => none) "handle" [] = InvokeResult.ok LuaMessage.Nil ∧
    invoke none returningGlobals "handle" []
      = InvokeResult.ok (LuaMessage.Integer 7) :=
  ⟨(C6_missing_handler_is_nil (fun _ => none) "handle" []).1 rfl,
   (C6_missing_handler_is_nil returningGlobals "handle" []).2
     (fun _ => ScriptOutcome.ret (LuaMessage.Integer 7)) (LuaMessage.Integer 7) rfl rfl⟩

/-- C7: `new_actor(path)` without a name returns
`"LuaActor-" ++ uuid ++ "-" ++ path` (so the name ends with `-<path>`),
registers the child under that name, and the name immediately works as a
`do_send` and `send` target; a supplied name is used as-is and overwrites any
colliding registry entry. -/
theorem C7_new_actor_naming_and_registration (uuid : String) (childAddr : Addr)
    (recs : Recipients) (path : String) :
    (new_actor_binding uuid childAddr recs path LuaMessage.Nil).2.2
        = LuaMessage.String ("LuaActor-" ++ uuid ++ "-" ++ path) ∧
    (∃ pre, "LuaActor-" ++ uuid ++ "-" ++ path = pre ++ "-" ++ path) ∧
    recsLookup (new_actor_binding uuid childAddr recs path LuaMessage.Nil).1
        ("LuaActor-" ++ uuid ++ "-" ++ path) = some childAddr ∧
    (∀ msg,
      do_send_binding (new_actor_binding uuid childAddr recs path LuaMessage.Nil).1
          ("LuaActor-" ++ uuid ++ "-" ++ path) msg
        = ([Effect.recipientDoSend childAddr msg], BindingResult.ok)) ∧
    (∀ msg cid,
      handle_SendAttempt (new_actor_binding uuid childAddr recs path LuaMessage.Nil).1
          ⟨"LuaActor-" ++ uuid ++ "-" ++ path, msg, cid⟩
        = SendAttemptOutcome.awaiting childAddr msg cid) ∧
    (∀ n, (new_actor_binding uuid childAddr recs path (LuaMessage.String n)).2.2
            = LuaMessage.String n ∧
          recsLookup (new_actor_binding uuid childAddr recs path (LuaMessage.String n)).1 n
            = some childAddr) := by
  refine ⟨rfl, ⟨"LuaActor-" ++ uuid, by simp [String.append_assoc]⟩, ?_, ?_, ?_, ?_⟩
  · simp [new_actor_binding, recsLookup_insert]
  · intro msg
    simp [do_send_binding, new_actor_binding, recsLookup_insert]
  · intro msg cid
    simp [handle_SendAttempt, new_actor_binding, recsLookup_insert]
  · intro n
    exact ⟨rfl, by simp [new_actor_binding, recsLookup_insert]⟩

/-- C8: a load failure of the start, handle or stop script (the earlier slots
loading cleanly) makes `new_with_vm` return that error synchronously and
produce no actor. -/
theorem C8_load_failure_is_synchronous (load : LoadFun) (e : String)
    (s h : String) :
    (load s "started" = Except.error e →
       ∀ hnd stp, new_with_vm (Except.ok ()) load (some s) hnd stp
         = Except.error e) ∧
    (load h "handle" = Except.error e →
       ∀ stp, new_with_vm (Except.ok ()) load none (some h) stp
         = Except.error e) ∧
    (∀ stp, load h "handle" = Except.ok () → load stp "stopped" = Except.error e →
       new_with_vm (Except.ok ()) load none (some h) (some stp)
         = Except.error e) := by
  refine ⟨fun hl hnd stp => ?_, fun hl stp => ?_, fun stp h1 h2 => ?_⟩ <;>
    simp [new_with_vm, Bind.bind, Except.bind, Pure.pure, Except.pure, *]

/-- Witness for C8: a failing handle script load surfaces at construction. -/
theorem C8_load_failure_is_synchronous_witness :
    new_with_vm (Except.ok ()) failingLoad none (some "return 1+") none
      = Except.error "syntax error" :=
  (C8_load_failure_is_synchronous failingLoad "syntax error" "x" "return 1+").2.1
    rfl none

/-- C9(counterexample): after the actor handles the internal attempt for the
registered child, an external message is still queued, yet no mailbox
processing step is possible: `Handler<SendAttempt>`'s `.wait(ctx)` holds the
whole actor, refuting the claim that other queued messages keep being
processed while the continuation is outstanding. -/
theorem C9_counterexample :
    stepProcess exampleRecs exampleMailbox
      = some (QueuedMsg.attempt exampleAttempt, exampleWaiting) ∧
    exampleWaiting.queue = [QueuedMsg.external (LuaMessage.Integer 5)] ∧
    stepProcess exampleRecs exampleWaiting = none :=
  ⟨rfl, rfl, rfl⟩

/-- C9(amended): while the continuation is outstanding the mailbox keeps
accepting and queueing messages, but the actor processes none of them; only
when the target's response arrives is the hold released, the internal result
message enqueued, and processing resumed. -/
theorem C9_wait_pauses_processing (recs : Recipients) (s : MailboxState)
    (t : Addr) (cid : Int) (h : s.mode = ActorMode.waitingSend t cid) :
    (∀ m, (acceptMsg s m).queue = s.queue ++ [m] ∧ (acceptMsg s m).mode = s.mode) ∧
    stepProcess recs s = none ∧
    (∀ r, (responseArrives s r).mode = ActorMode.running ∧
          (responseArrives s r).queue
            = s.queue ++ [QueuedMsg.attemptResult ⟨r, cid⟩]) := by
  refine ⟨fun m => ⟨rfl, rfl⟩, ?_, fun r => ?_⟩
  · simp [stepProcess, h]
  · constructor <;> simp [responseArrives, h]

/-- Witness for C9 at the concrete waiting mailbox. -/
theorem C9_wait_pauses_processing_witness :
    stepProcess exampleRecs exampleWaiting = none ∧
    (responseArrives exampleWaiting LuaMessage.Nil).mode = ActorMode.running :=
  ⟨(C9_wait_pauses_processing exampleRecs exampleWaiting 0 1 rfl).2.1,
   ((C9_wait_pauses_processing exampleRecs exampleWaiting 0 1 rfl).2.2
      LuaMessage.Nil).1⟩

/-- C10: whenever `invoke` reports an error (`Err(LuaError)`, e.g. a failure
installing the host bindings) while an externally delivered message is being
handled, `Handler<LuaMessage>` replies `LuaMessage::Nil` to the external
sender instead of propagating the error or terminating the actor. -/
theorem C10_invoke_error_replies_nil (installFailure : Option String)
    (g : Globals) (msg : LuaMessage) (e : String)
    (h : invoke installFailure g "__run" [LuaMessage.String "handle", msg]
           = InvokeResult.luaErr e) :
    handle_LuaMessage installFailure g msg = HandlerOutcome.reply LuaMessage.Nil := by
  simp [handle_LuaMessage, runInvokeToReply, luaMessageCall, h]

/-- Witness for C10: a concrete binding-installation failure yields the nil
reply. -/
theorem C10_invoke_error_replies_nil_witness :
    handle_LuaMessage (some "install failed") (fun _ => none) LuaMessage.Nil
      = HandlerOutcome.reply LuaMessage.Nil :=
  C10_invoke_error_replies_nil (some "install failed") (fun _ => none)
    LuaMessage.Nil "install failed" rfl

end ActixLua
